import Mathlib

/-
  Shallow embedding of the "manifest" backend:
  - src/backend/src/controllers/authController.js
      (register, verifyRegistration, login, verifyOtpReset)
  - src/backend/src/middleware/auth.js (requireRole)
  - analytics controller (getTimeSeries)

  Conventions of the embedding:
  - Request-body fields are `Option String` (`none` models an absent /
    `undefined` field); JS truthiness of such a field ("falsy" for
    `undefined` and for the empty string) is the `truthy` predicate.
  - Timestamps (`Date.now()`, `expires`, `otpExpires`) are natural numbers
    of milliseconds; `new Date() > e` is `now > e`, and a `null` date in
    that comparison coerces to 0 as in JS.
  - Metric dates are natural-number day keys.
  - bcrypt is an abstract parameter: `hash : String → String` models
    `bcrypt.hash (·, 10)`, and `compare : String → String → Bool` models
    `bcrypt.compare`.
  - `jwt.sign` embeds its payload in the produced token, so a token is a
    record holding the payload (plus the secret and expiry options).
  - The database is the explicit state: lists of User / PendingUser /
    Metric rows plus the auto-increment counter for `User.id`, and the
    outbox of e-mails handed to the SMTP transporter.
-/

namespace Manifest

/-- JS truthiness of an optional string body field:
`undefined` and `""` are falsy, any other string is truthy. -/
def truthy : Option String → Bool
  | none => false
  | some s => s ≠ ""

/-- A row of the `User` table. `otp` / `otpExpires` are nullable. -/
structure User where
  id : Nat
  username : String
  name : Option String
  email : String
  passwordHash : String
  phone : Option String
  role : String
  otp : Option String
  otpExpires : Option Nat
deriving Repr, DecidableEq

/-- A row of the `PendingUser` table, keyed by `email`. -/
structure PendingUser where
  email : String
  username : String
  name : Option String
  passwordHash : String
  phone : Option String
  role : String
  otp : String
  expires : Nat
deriving Repr, DecidableEq

/-- A row of the `Metric` table, keyed by `date`. -/
structure Metric where
  date : Nat
  totalUsers : Nat
  totalSales : Nat
  totalConversions : Nat
deriving Repr, DecidableEq

/-- An e-mail handed to `transporter.sendMail`; `toAddr` is the `to`
field of the source (a reserved word here). -/
structure EmailMsg where
  toAddr : String
  subject : String
  text : String
deriving Repr, DecidableEq

/-- The persistent state: the three tables, the auto-increment counter
for `User.id`, and the outbox of sent mails. -/
structure DB where
  users : List User
  pendingUsers : List PendingUser
  metrics : List Metric
  nextUserId : Nat
  outbox : List EmailMsg
deriving Repr, DecidableEq

/-- `User.findOne({ where: { email } })` for a body-supplied (hence
possibly absent) email: an absent email matches no row. -/
def userByEmail (e : Option String) (l : List User) : Option User :=
  match e with
  | none => none
  | some s => l.find? fun u => u.email == s

/-- `PendingUser.findByPk(email)` for a body-supplied email. -/
def pendingByPk (e : Option String) (l : List PendingUser) : Option PendingUser :=
  match e with
  | none => none
  | some s => l.find? fun q => q.email == s

/-- `genOTP()`: `Math.floor(100000 + Math.random() * 900000).toString()`;
the randomness is the `rand` parameter. -/
def genOTP (rand : Nat) : String :=
  toString (100000 + rand % 900000)

/-- `PendingUser.upsert`: overwrite the row with the same email key,
or insert a new row. -/
def upsertPending (p : PendingUser) (l : List PendingUser) : List PendingUser :=
  if l.any (fun q => q.email == p.email) then
    l.map fun q => if q.email == p.email then p else q
  else l ++ [p]

/-- A plain `{ status, message }` JSON response. -/
structure ApiMsg where
  status : Nat
  message : String
deriving Repr, DecidableEq

/-- The request body of `register`. -/
structure RegisterBody where
  username : Option String
  name : Option String
  email : Option String
  password : Option String
  phone : Option String
  role : Option String
deriving Repr, DecidableEq

/-- `register` (authController.js lines 27-69): validate presence of
username/email/password, reject an email that is already a full User
with 409, otherwise hash the password, generate an OTP, upsert the
PendingUser row with a 15-minute expiry and send the OTP mail. -/
def register (hash : String → String) (rand now : Nat)
    (body : RegisterBody) (db : DB) : ApiMsg × DB :=
  let role := body.role.getD "staff"
  if ¬ (truthy body.username ∧ truthy body.email ∧ truthy body.password) then
    (⟨400, "Missing required fields"⟩, db)
  else
    match userByEmail body.email db.users with
    | some _ => (⟨409, "Email already registered"⟩, db)
    | none =>
      let email := body.email.getD ""
      let passwordHash := hash (body.password.getD "")
      let otp := genOTP rand
      let expires := now + 15 * 60 * 1000
      let p : PendingUser :=
        ⟨email, body.username.getD "", body.name, passwordHash, body.phone,
          role, otp, expires⟩
      let mail : EmailMsg :=
        ⟨email, "Your Registration OTP",
          "Your MANIFEST Registration OTP is " ++ otp ++
            ". It expires in 15 minutes."⟩
      (⟨200, "OTP sent to your email"⟩,
        { db with
            pendingUsers := upsertPending p db.pendingUsers
            outbox := db.outbox ++ [mail] })

/-- The request body of `verifyRegistration`. -/
structure VerifyBody where
  email : Option String
  otp : Option String
deriving Repr, DecidableEq

/-- The response of `verifyRegistration`. -/
structure VerifyResult where
  status : Nat
  message : String
  userId : Option Nat
deriving Repr, DecidableEq

/-- `Metric.findOrCreate({ where: { date: today }, defaults: {1,0,0} })`
followed by `metric.totalUsers += 1; metric.save()` when the row
already existed. -/
def metricBump (today : Nat) (l : List Metric) : List Metric :=
  match l.find? (fun m => m.date == today) with
  | none => l ++ [⟨today, 1, 0, 0⟩]
  | some _ =>
      l.map fun m =>
        if m.date == today then { m with totalUsers := m.totalUsers + 1 } else m

/-- `verifyRegistration` (authController.js lines 74-130): check the
pending row, the OTP and the expiry, re-check for a duplicate User,
create the User (copying all pending fields, including `otp` and
`expires` into `otp`/`otpExpires`), best-effort bump today's Metric
row (`metricOk = false` models the metric step throwing, which is
caught and ignored), delete the pending row and answer 201 with the
new user's id. -/
def verifyRegistration (today now : Nat) (metricOk : Bool)
    (body : VerifyBody) (db : DB) : VerifyResult × DB :=
  match pendingByPk body.email db.pendingUsers with
  | none => (⟨400, "No registration found for this email", none⟩, db)
  | some pending =>
    if body.otp ≠ some pending.otp then
      (⟨400, "Invalid OTP", none⟩, db)
    else if now > pending.expires then
      (⟨400, "OTP expired. Please request a new one.", none⟩, db)
    else
      match userByEmail body.email db.users with
      | some _ =>
          (⟨400, "User already registered.", none⟩,
            { db with
                pendingUsers :=
                  db.pendingUsers.filter fun q => ¬ q.email == pending.email })
      | none =>
          let user : User :=
            ⟨db.nextUserId, pending.username, pending.name, pending.email,
              pending.passwordHash, pending.phone, pending.role,
              some pending.otp, some pending.expires⟩
          let db₁ :=
            { db with
                users := db.users ++ [user]
                nextUserId := db.nextUserId + 1 }
          let db₂ :=
            if metricOk then { db₁ with metrics := metricBump today db₁.metrics }
            else db₁
          let db₃ :=
            { db₂ with
                pendingUsers :=
                  db₂.pendingUsers.filter fun q => ¬ q.email == pending.email }
          (⟨201, "Registration successful", some user.id⟩, db₃)

/-- The payload embedded in a login token. -/
structure Payload where
  id : Nat
  username : String
  role : String
  email : String
deriving Repr, DecidableEq

/-- A signed bearer token: `jwt.sign(payload, secret, { expiresIn })`
embeds exactly its payload (plus the signing options). -/
structure Token where
  payload : Payload
  secret : String
  expiresIn : String
deriving Repr, DecidableEq

/-- The request body of `login`. -/
structure LoginBody where
  email : Option String
  password : Option String
deriving Repr, DecidableEq

/-- The response of `login`: the token and the `user` echo of the signed
payload are only present on success. -/
structure LoginResult where
  status : Nat
  message : Option String
  token : Option Token
  user : Option Payload
deriving Repr, DecidableEq

/-- `login` (authController.js lines 135-165): validate presence of
credentials, look the User up by email (401 if absent), check the
password with `bcrypt.compare` (401 on mismatch), then sign and return
a token embedding `{ id, username, role, email }`.
`jwtExpiresEnv` models `process.env.JWT_EXPIRES_IN` (`'7d'` when unset
or empty, by JS `||`). -/
def login (compare : String → String → Bool) (secret : String)
    (jwtExpiresEnv : Option String) (body : LoginBody) (db : DB) : LoginResult :=
  if ¬ (truthy body.email ∧ truthy body.password) then
    ⟨400, some "Missing credentials", none, none⟩
  else
    match userByEmail body.email db.users with
    | none => ⟨401, some "User not found", none, none⟩
    | some user =>
      if ¬ compare (body.password.getD "") user.passwordHash then
        ⟨401, some "Invalid password", none, none⟩
      else
        let payload : Payload := ⟨user.id, user.username, user.role, user.email⟩
        let expiresIn := if truthy jwtExpiresEnv then jwtExpiresEnv.getD "" else "7d"
        ⟨200, none, some ⟨payload, secret, expiresIn⟩, some payload⟩

/-- The request body of `verifyOtpReset`. -/
structure ResetBody where
  email : Option String
  otp : Option String
  newPassword : Option String
deriving Repr, DecidableEq

/-- `verifyOtpReset` (authController.js lines 202-226): validate presence
of email/otp/newPassword, look the User up (404 if absent), reject when
the stored `otp` is falsy, differs from the submitted one, or
`otpExpires` has passed (a `null` expiry coerces to 0 in the JS `>`
comparison), then store the hash of the new password, null both OTP
fields and save the row (update in place by primary key `id`). -/
def verifyOtpReset (hash : String → String) (now : Nat)
    (body : ResetBody) (db : DB) : ApiMsg × DB :=
  if ¬ (truthy body.email ∧ truthy body.otp ∧ truthy body.newPassword) then
    (⟨400, "Email, OTP and new password required"⟩, db)
  else
    match userByEmail body.email db.users with
    | none => (⟨404, "User not found"⟩, db)
    | some user =>
      if ¬ truthy user.otp ∨ user.otp ≠ body.otp ∨ now > user.otpExpires.getD 0 then
        (⟨400, "Invalid or expired OTP"⟩, db)
      else
        let u : User :=
          { user with
              passwordHash := hash (body.newPassword.getD "")
              otp := none
              otpExpires := none }
        (⟨200, "Password updated successfully"⟩,
          { db with users := db.users.map fun v => if v.id == user.id then u else v })

/-- The observable outcome of an express middleware: either `next()` was
called, or a terminal response was sent. -/
inductive GateOutcome
  | nextCalled
  | rejected (status : Nat) (message : String)
deriving Repr, DecidableEq

/-- `requireRole(...roles)` (middleware/auth.js lines 47-54): reject with
403 when no user is attached or its role is outside the permitted set,
otherwise call `next()`. -/
def requireRole (roles : List String) (reqUser : Option User) : GateOutcome :=
  match reqUser with
  | none => .rejected 403 "Access denied"
  | some u =>
      if roles.contains u.role then .nextCalled
      else .rejected 403 "Access denied"

/-- One point of a chart series. -/
structure Point where
  date : Nat
  value : Nat
deriving Repr, DecidableEq

/-- The three parallel per-metric series returned by `getTimeSeries`. -/
structure Series where
  users : List Point
  sales : List Point
  conversions : List Point
deriving Repr, DecidableEq

/-- `SUM(totalUsers)` over the rows of a given date. -/
def sumUsersOn (rows : List Metric) (d : Nat) : Nat :=
  ((rows.filter fun m => m.date == d).map Metric.totalUsers).sum

/-- `SUM(totalSales)` over the rows of a given date. -/
def sumSalesOn (rows : List Metric) (d : Nat) : Nat :=
  ((rows.filter fun m => m.date == d).map Metric.totalSales).sum

/-- `SUM(totalConversions)` over the rows of a given date. -/
def sumConversionsOn (rows : List Metric) (d : Nat) : Nat :=
  ((rows.filter fun m => m.date == d).map Metric.totalConversions).sum

/-- `GROUP BY date ... ORDER BY date ASC` over a set of Metric rows:
one summed row per distinct date, in ascending date order. -/
def groupByDate (rows : List Metric) : List Metric :=
  (((rows.map Metric.date).dedup).insertionSort (· ≤ ·)).map fun d =>
    ⟨d, sumUsersOn rows d, sumSalesOn rows d, sumConversionsOn rows d⟩

/-- `getTimeSeries` (analytics controller lines 5-38), data part: filter
the Metric rows to `date >= since`, sum the three columns grouped by
date in ascending order, then push one point per result row into each
of the three series. -/
def getTimeSeries (since : Nat) (metrics : List Metric) : Series :=
  let results := groupByDate (metrics.filter fun m => since ≤ m.date)
  { users := results.map fun r => ⟨r.date, r.totalUsers⟩
    sales := results.map fun r => ⟨r.date, r.totalSales⟩
    conversions := results.map fun r => ⟨r.date, r.totalConversions⟩ }

/-! ### Helper lemmas -/

/-- A successful `pendingByPk` lookup returns a row with the looked-up
email. -/
lemma pendingByPk_email {e : String} {l : List PendingUser} {p : PendingUser}
    (h : pendingByPk (some e) l = some p) : p.email = e := by
  simp only [pendingByPk] at h
  have h2 := List.find?_some h
  simpa using h2

/-- After filtering out every row with a given email, a `pendingByPk`
lookup of that email finds nothing. -/
lemma pendingByPk_filter_self (e : String) (l : List PendingUser) :
    pendingByPk (some e) (l.filter fun q => ¬ q.email == e) = none := by
  simp [pendingByPk, List.find?_eq_none]

/-- A verification with no matching PendingUser row answers 400 and
changes nothing. -/
lemma verifyRegistration_no_pending (today now : Nat) (metricOk : Bool)
    (body : VerifyBody) (db : DB)
    (h : pendingByPk body.email db.pendingUsers = none) :
    verifyRegistration today now metricOk body db =
      (⟨400, "No registration found for this email", none⟩, db) := by
  simp [verifyRegistration, h]

/-- If every matching element of a list is `a` and some element matches,
`find?` returns `a`. -/
lemma find?_all_eq {α : Type} (p : α → Bool) (a : α) (l : List α)
    (h1 : ∀ x ∈ l, p x = true → x = a) (h2 : ∃ x ∈ l, p x = true) :
    l.find? p = some a := by
  induction l with
  | nil => simp at h2
  | cons y ys ih =>
      by_cases hy : p y = true
      · rw [List.find?_cons_of_pos _ hy]
        exact congrArg some (h1 y (by simp) hy)
      · rw [List.find?_cons_of_neg _ (by simpa using hy)]
        apply ih
        · exact fun x hx hpx => h1 x (by simp [hx]) hpx
        · rcases h2 with ⟨x, hx, hpx⟩
          rcases List.mem_cons.mp hx with h | h
          · exact absurd (h ▸ hpx) hy
          · exact ⟨x, h, hpx⟩

/-- Appending a row with the looked-up email to a table without it makes
the lookup return that row. -/
lemma userByEmail_append_of_none {e : String} {l : List User} {u : User}
    (h : userByEmail (some e) l = none) (hue : u.email = e) :
    userByEmail (some e) (l ++ [u]) = some u := by
  simp only [userByEmail] at h ⊢
  rw [List.find?_append, h]
  simp [hue]

/-- Updating the appended row in place (by id) still lets the lookup of
its email return the updated row, when no original row had that
email. -/
lemma userByEmail_map_update {e : String} {l : List User} {w u' : User}
    (hl : userByEmail (some e) l = none) (hue : u'.email = e) :
    userByEmail (some e) ((l ++ [w]).map fun v => if v.id == w.id then u' else v) =
      some u' := by
  have hnone : ∀ v ∈ l, ¬ v.email = e := by simpa [userByEmail] using hl
  simp only [userByEmail]
  apply find?_all_eq
  · intro x hx hpx
    rcases List.mem_map.mp hx with ⟨v, hv, hfx⟩
    rcases List.mem_append.mp hv with hv | hv
    · by_cases hid : (v.id == w.id) = true
      · rw [← hfx, if_pos hid]
      · rw [← hfx, if_neg (by simp [hid])] at hpx
        exact absurd (by simpa using hpx) (hnone v hv)
    · have hveq : v = w := by simpa using hv
      rw [← hfx, hveq, if_pos (by simp)]
  · refine ⟨u', List.mem_map.mpr ⟨w, List.mem_append_right _ (by simp),
      by rw [if_pos (by simp)]⟩, by simp [hue]⟩

/-- The full effect of a successful `verifyRegistration`. -/
lemma verifyRegistration_success_eq
    (today now : Nat) (metricOk : Bool) (email otp : String) (db : DB) (p : PendingUser)
    (hp : pendingByPk (some email) db.pendingUsers = some p)
    (hotp : p.otp = otp)
    (hexp : now ≤ p.expires)
    (hu : userByEmail (some email) db.users = none) :
    verifyRegistration today now metricOk ⟨some email, some otp⟩ db =
      (⟨201, "Registration successful", some db.nextUserId⟩,
        ⟨db.users ++
            [⟨db.nextUserId, p.username, p.name, p.email, p.passwordHash, p.phone,
              p.role, some p.otp, some p.expires⟩],
          db.pendingUsers.filter fun q => ¬ q.email == p.email,
          if metricOk then metricBump today db.metrics else db.metrics,
          db.nextUserId + 1, db.outbox⟩) := by
  have hno : ¬ now > p.expires := not_lt.mpr hexp
  cases metricOk <;> simp [verifyRegistration, hp, hotp, hno, hu]

/-- The full effect of a successful `verifyOtpReset`. -/
lemma verifyOtpReset_success_eq
    (hash : String → String) (now : Nat) (email otpv newPassword : String)
    (db : DB) (u : User) (t : Nat)
    (he : email ≠ "") (ho : otpv ≠ "") (hnp : newPassword ≠ "")
    (hu : userByEmail (some email) db.users = some u)
    (hotp : u.otp = some otpv)
    (hexp : u.otpExpires = some t) (hnow : now ≤ t) :
    verifyOtpReset hash now ⟨some email, some otpv, some newPassword⟩ db =
      (⟨200, "Password updated successfully"⟩,
        { db with users := db.users.map fun v =>
            if v.id == u.id then
              { u with passwordHash := hash newPassword, otp := none, otpExpires := none }
            else v }) := by
  have hnogt : ¬ now > (u.otpExpires.getD 0) := by
    rw [hexp]
    exact not_lt.mpr hnow
  simp [verifyOtpReset, truthy, he, ho, hnp, hu, hotp, hnogt]

/-! ### Theorems -/

/-- C1: a verification whose email has a PendingUser row with the
submitted OTP and an unexpired expiry, while no User with that email
exists, appends exactly one User copying the pending fields, deletes
the PendingUser row, answers 201 with the new user's id, and a second
verification with the same email and OTP then answers 400. -/
theorem verifyRegistration_success
    (today now today' now' : Nat) (metricOk metricOk' : Bool)
    (email otp : String) (db : DB) (p : PendingUser)
    (hp : pendingByPk (some email) db.pendingUsers = some p)
    (hotp : p.otp = otp)
    (hexp : now ≤ p.expires)
    (hu : userByEmail (some email) db.users = none) :
    (verifyRegistration today now metricOk ⟨some email, some otp⟩ db).1.status = 201 ∧
    (verifyRegistration today now metricOk ⟨some email, some otp⟩ db).1.userId =
      some db.nextUserId ∧
    (verifyRegistration today now metricOk ⟨some email, some otp⟩ db).2.users =
      db.users ++
        [⟨db.nextUserId, p.username, p.name, p.email, p.passwordHash, p.phone,
          p.role, some p.otp, some p.expires⟩] ∧
    (verifyRegistration today now metricOk ⟨some email, some otp⟩ db).2.pendingUsers =
      (db.pendingUsers.filter fun q => ¬ q.email == p.email) ∧
    (verifyRegistration today' now' metricOk' ⟨some email, some otp⟩
      (verifyRegistration today now metricOk ⟨some email, some otp⟩ db).2).1.status =
      400 := by
  have hno : ¬ now > p.expires := not_lt.mpr hexp
  have hpe : p.email = email := pendingByPk_email hp
  have hmain :
      verifyRegistration today now metricOk ⟨some email, some otp⟩ db =
        (⟨201, "Registration successful", some db.nextUserId⟩,
          { users := db.users ++
              [⟨db.nextUserId, p.username, p.name, p.email, p.passwordHash,
                p.phone, p.role, some p.otp, some p.expires⟩]
            pendingUsers := db.pendingUsers.filter fun q => ¬ q.email == p.email
            metrics := if metricOk then metricBump today db.metrics else db.metrics
            nextUserId := db.nextUserId + 1
            outbox := db.outbox }) := by
    cases metricOk <;> simp [verifyRegistration, hp, hotp, hno, hu]
  refine ⟨by rw [hmain], by rw [hmain], by rw [hmain], by rw [hmain], ?_⟩
  rw [hmain]
  have hnone : pendingByPk (some email)
      (db.pendingUsers.filter fun q => ¬ q.email == p.email) = none := by
    rw [hpe]
    exact pendingByPk_filter_self email db.pendingUsers
  rw [verifyRegistration_no_pending today' now' metricOk' ⟨some email, some otp⟩ _ hnone]

/-- C3: a verification whose PendingUser row has expired answers 400 and
changes nothing, whether or not the submitted OTP matches the stored
one. -/
theorem verifyRegistration_expired
    (today now : Nat) (metricOk : Bool) (email : String) (otpSub : Option String)
    (db : DB) (p : PendingUser)
    (hp : pendingByPk (some email) db.pendingUsers = some p)
    (hexp : now > p.expires) :
    (verifyRegistration today now metricOk ⟨some email, otpSub⟩ db).1.status = 400 ∧
    (verifyRegistration today now metricOk ⟨some email, otpSub⟩ db).2 = db := by
  by_cases h : otpSub = some p.otp
  · simp [verifyRegistration, hp, h, hexp]
  · simp [verifyRegistration, hp, h]

/-- C7: when the Metric find-or-create/increment step throws (modelled by
`metricOk = false`), a verification passing the OTP, expiry and
duplicate checks still creates the User, still deletes the PendingUser
row, leaves the metrics untouched and still answers 201 with the new
user's id. -/
theorem verifyRegistration_metric_failure
    (today now : Nat) (email otp : String) (db : DB) (p : PendingUser)
    (hp : pendingByPk (some email) db.pendingUsers = some p)
    (hotp : p.otp = otp)
    (hexp : now ≤ p.expires)
    (hu : userByEmail (some email) db.users = none) :
    (verifyRegistration today now false ⟨some email, some otp⟩ db).1.status = 201 ∧
    (verifyRegistration today now false ⟨some email, some otp⟩ db).1.userId =
      some db.nextUserId ∧
    (verifyRegistration today now false ⟨some email, some otp⟩ db).2.users =
      db.users ++
        [⟨db.nextUserId, p.username, p.name, p.email, p.passwordHash, p.phone,
          p.role, some p.otp, some p.expires⟩] ∧
    (verifyRegistration today now false ⟨some email, some otp⟩ db).2.pendingUsers =
      (db.pendingUsers.filter fun q => ¬ q.email == p.email) ∧
    (verifyRegistration today now false ⟨some email, some otp⟩ db).2.metrics =
      db.metrics := by
  have hno : ¬ now > p.expires := not_lt.mpr hexp
  simp [verifyRegistration, hp, hotp, hno, hu]

/-- C6: a request reaching a `requireRole(...roles)` gate passes through
(`next()` is called) exactly when a user is attached and its role is in
the permitted set; otherwise the middleware answers 403 "Access denied"
and `next()` is not called. -/
theorem requireRole_gate (roles : List String) (reqUser : Option User) :
    (requireRole roles reqUser = GateOutcome.nextCalled ↔
      ∃ u, reqUser = some u ∧ u.role ∈ roles) ∧
    (requireRole roles reqUser = GateOutcome.nextCalled ∨
      requireRole roles reqUser = GateOutcome.rejected 403 "Access denied") := by
  cases reqUser with
  | none => simp [requireRole]
  | some u =>
      have hc : roles.contains u.role = true ↔ u.role ∈ roles := by
        simp [List.contains, List.elem_iff]
      by_cases h : u.role ∈ roles
      · simp [requireRole, hc.mpr h, h]
      · have hf : roles.contains u.role = false :=
          Bool.eq_false_iff.mpr (fun ht => h (hc.mp ht))
        simp [requireRole, hf, h]

/-- C4 counterexample: a register request for an email that is already a
full User, but with the username field absent, answers 400 (missing
fields), not 409; so the claim's unconditional 409 fails, although the
state is still untouched. -/
theorem register_conflict_counterexample :
    userByEmail (RegisterBody.mk none none (some "a@x.com") (some "p") none none).email
        (DB.mk [User.mk 0 "a" none "a@x.com" "H" none "staff" none none] [] [] 1 []).users =
      some (User.mk 0 "a" none "a@x.com" "H" none "staff" none none) ∧
    (register (fun s => s) 0 0 (RegisterBody.mk none none (some "a@x.com") (some "p") none none)
        (DB.mk [User.mk 0 "a" none "a@x.com" "H" none "staff" none none] [] [] 1 [])).1.status =
      400 ∧
    (register (fun s => s) 0 0 (RegisterBody.mk none none (some "a@x.com") (some "p") none none)
        (DB.mk [User.mk 0 "a" none "a@x.com" "H" none "staff" none none] [] [] 1 [])).1.status ≠
      409 := by
  refine ⟨by decide, by decide, by decide⟩

/-- C4 (amended): a register request with username, email and password all
present and non-empty whose email already belongs to a full User
answers 409 and changes nothing: no PendingUser row is written and no
mail is sent. -/
theorem register_conflict
    (hash : String → String) (rand now : Nat) (body : RegisterBody) (db : DB) (u : User)
    (hv : truthy body.username ∧ truthy body.email ∧ truthy body.password)
    (hu : userByEmail body.email db.users = some u) :
    (register hash rand now body db).1.status = 409 ∧
    (register hash rand now body db).2 = db := by
  simp [register, hv, hu]

/-- C5 counterexample: a login request with an empty-string password for
an email that belongs to no User answers 400 (missing credentials),
not the claimed 401 — though it still carries no token. -/
theorem login_unauthorized_counterexample :
    userByEmail (some "x@y.z") (DB.mk [] [] [] 0 []).users = none ∧
    (login (fun _ _ => false) "s" none (LoginBody.mk (some "x@y.z") (some ""))
        (DB.mk [] [] [] 0 [])).status = 400 ∧
    (login (fun _ _ => false) "s" none (LoginBody.mk (some "x@y.z") (some ""))
        (DB.mk [] [] [] 0 [])).status ≠ 401 ∧
    (login (fun _ _ => false) "s" none (LoginBody.mk (some "x@y.z") (some ""))
        (DB.mk [] [] [] 0 [])).token = none := by
  refine ⟨by decide, by decide, by decide, by decide⟩

/-- C5 (amended): a login request with non-empty email and password
answers 401 with no token whenever no User carries that email or
`bcrypt.compare` rejects the password against the stored hash. -/
theorem login_unauthorized
    (compare : String → String → Bool) (secret : String) (jwtExpiresEnv : Option String)
    (email password : String) (db : DB)
    (he : email ≠ "") (hpw : password ≠ "")
    (h : userByEmail (some email) db.users = none ∨
      ∃ u, userByEmail (some email) db.users = some u ∧
        compare password u.passwordHash = false) :
    (login compare secret jwtExpiresEnv ⟨some email, some password⟩ db).status = 401 ∧
    (login compare secret jwtExpiresEnv ⟨some email, some password⟩ db).token = none := by
  rcases h with h | ⟨u, hu, hc⟩
  · simp [login, truthy, he, hpw, h]
  · simp [login, truthy, he, hpw, hu, hc]

/-- C2: a login request for an existing User with a password accepted by
`bcrypt.compare` against the stored hash answers 200 with a `user`
payload copying the stored id, username, role and email, and a token
embedding exactly that payload. -/
theorem login_success
    (compare : String → String → Bool) (secret : String) (jwtExpiresEnv : Option String)
    (email password : String) (db : DB) (u : User)
    (he : email ≠ "") (hpw : password ≠ "")
    (hu : userByEmail (some email) db.users = some u)
    (hc : compare password u.passwordHash = true) :
    (login compare secret jwtExpiresEnv ⟨some email, some password⟩ db).status = 200 ∧
    (login compare secret jwtExpiresEnv ⟨some email, some password⟩ db).user =
      some ⟨u.id, u.username, u.role, u.email⟩ ∧
    ∃ t : Token,
      (login compare secret jwtExpiresEnv ⟨some email, some password⟩ db).token = some t ∧
      t.payload = ⟨u.id, u.username, u.role, u.email⟩ := by
  simp [login, truthy, he, hpw, hu, hc]

/-- C8 (amended): a reset request whose User carries a non-empty stored OTP equal to
the submitted one with an unexpired `otpExpires` answers 200 and
updates exactly that row: the password hash becomes the hash of the
new password, both OTP fields become null, and id, username, name,
email, phone and role are unchanged. -/
theorem verifyOtpReset_success
    (hash : String → String) (now : Nat) (email otpv newPassword : String)
    (db : DB) (u : User) (t : Nat)
    (he : email ≠ "") (ho : otpv ≠ "") (hnp : newPassword ≠ "")
    (hu : userByEmail (some email) db.users = some u)
    (hotp : u.otp = some otpv)
    (hexp : u.otpExpires = some t) (hnow : now ≤ t) :
    (verifyOtpReset hash now ⟨some email, some otpv, some newPassword⟩ db).1.status = 200 ∧
    ∃ u' : User,
      (verifyOtpReset hash now ⟨some email, some otpv, some newPassword⟩ db).2.users =
        db.users.map (fun v => if v.id == u.id then u' else v) ∧
      u'.passwordHash = hash newPassword ∧ u'.otp = none ∧ u'.otpExpires = none ∧
      u'.id = u.id ∧ u'.username = u.username ∧ u'.name = u.name ∧
      u'.email = u.email ∧ u'.phone = u.phone ∧ u'.role = u.role := by
  have hnogt : ¬ now > (u.otpExpires.getD 0) := by
    rw [hexp]
    exact not_lt.mpr hnow
  refine ⟨?_, ⟨{ u with passwordHash := hash newPassword, otp := none, otpExpires := none },
    ?_, rfl, rfl, rfl, rfl, rfl, rfl, rfl, rfl, rfl⟩⟩
  · simp [verifyOtpReset, truthy, he, ho, hnp, hu, hotp, hnogt]
  · simp [verifyOtpReset, truthy, he, ho, hnp, hu, hotp, hnogt]

/-- The date column of the grouped `getTimeSeries` result: the distinct
qualifying dates in ascending order. -/
lemma getTimeSeries_users_dates (since : Nat) (ms : List Metric) :
    (getTimeSeries since ms).users.map Point.date =
      (((ms.filter fun m => since ≤ m.date).map Metric.date).dedup).insertionSort
        (· ≤ ·) := by
  simp [getTimeSeries, groupByDate, List.map_map, Function.comp_def]

/-- C9: `getTimeSeries` returns three parallel point lists of equal
length whose i-th points share one date, the dates being exactly the
distinct Metric-row dates on or after the cutoff, in ascending order,
each occurring once. -/
theorem getTimeSeries_parallel_series (since : Nat) (ms : List Metric) :
    ((getTimeSeries since ms).users.length = (getTimeSeries since ms).sales.length ∧
     (getTimeSeries since ms).users.length =
       (getTimeSeries since ms).conversions.length) ∧
    ((getTimeSeries since ms).users.map Point.date =
       (getTimeSeries since ms).sales.map Point.date ∧
     (getTimeSeries since ms).users.map Point.date =
       (getTimeSeries since ms).conversions.map Point.date) ∧
    List.Sorted (· ≤ ·) ((getTimeSeries since ms).users.map Point.date) ∧
    ((getTimeSeries since ms).users.map Point.date).Nodup ∧
    (∀ d, d ∈ (getTimeSeries since ms).users.map Point.date ↔
      ∃ m, m ∈ ms ∧ since ≤ m.date ∧ m.date = d) := by
  refine ⟨⟨?_, ?_⟩, ⟨?_, ?_⟩, ?_, ?_, ?_⟩
  · simp [getTimeSeries]
  · simp [getTimeSeries]
  · simp [getTimeSeries, List.map_map, Function.comp]
  · simp [getTimeSeries, List.map_map, Function.comp]
  · rw [getTimeSeries_users_dates]
    exact List.sorted_insertionSort _ _
  · rw [getTimeSeries_users_dates]
    exact ((List.perm_insertionSort _ _).nodup_iff).mpr (List.nodup_dedup _)
  · intro d
    rw [getTimeSeries_users_dates]
    rw [(List.perm_insertionSort _ _).mem_iff, List.mem_dedup]
    simp [List.mem_map, List.mem_filter]
    constructor
    · rintro ⟨m, ⟨hm, hle⟩, hd⟩
      exact ⟨m, hm, by simpa [hd] using hle, hd⟩
    · rintro ⟨m, hm, hle, hd⟩
      exact ⟨m, ⟨hm, by simpa [hd] using hle⟩, hd⟩

/-- C10: a successful registration verification copies `otp` and
`otpExpires` from the PendingUser into the created User instead of
clearing them, so until that expiry passes, `verifyOtpReset` with the
same email and the registration OTP answers 200 and resets the
password, although no reset OTP was ever requested. -/
theorem registration_otp_enables_password_reset
    (today now₁ now₂ : Nat) (metricOk : Bool) (hash : String → String)
    (email newPassword : String) (db : DB) (p : PendingUser)
    (hp : pendingByPk (some email) db.pendingUsers = some p)
    (hexp₁ : now₁ ≤ p.expires)
    (hu : userByEmail (some email) db.users = none)
    (he : email ≠ "") (ho : p.otp ≠ "") (hnp : newPassword ≠ "")
    (hexp₂ : now₂ ≤ p.expires) :
    ∃ u : User,
      userByEmail (some email)
        (verifyRegistration today now₁ metricOk ⟨some email, some p.otp⟩ db).2.users =
        some u ∧
      u.otp = some p.otp ∧ u.otpExpires = some p.expires ∧
      (verifyOtpReset hash now₂ ⟨some email, some p.otp, some newPassword⟩
        (verifyRegistration today now₁ metricOk ⟨some email, some p.otp⟩ db).2).1.status =
        200 ∧
      ∃ u' : User,
        userByEmail (some email)
          (verifyOtpReset hash now₂ ⟨some email, some p.otp, some newPassword⟩
            (verifyRegistration today now₁ metricOk ⟨some email, some p.otp⟩ db).2).2.users =
          some u' ∧
        u'.passwordHash = hash newPassword ∧ u'.otp = none ∧ u'.otpExpires = none := by
  have hpe : p.email = email := pendingByPk_email hp
  have hreg := verifyRegistration_success_eq today now₁ metricOk email p.otp db p hp rfl
    hexp₁ hu
  have husr : userByEmail (some email)
      (verifyRegistration today now₁ metricOk ⟨some email, some p.otp⟩ db).2.users =
      some ⟨db.nextUserId, p.username, p.name, p.email, p.passwordHash, p.phone,
        p.role, some p.otp, some p.expires⟩ := by
    rw [hreg]
    exact userByEmail_append_of_none hu hpe
  have hreset := verifyOtpReset_success_eq hash now₂ email p.otp newPassword
    (verifyRegistration today now₁ metricOk ⟨some email, some p.otp⟩ db).2
    ⟨db.nextUserId, p.username, p.name, p.email, p.passwordHash, p.phone,
      p.role, some p.otp, some p.expires⟩ p.expires he ho hnp husr rfl rfl hexp₂
  refine ⟨⟨db.nextUserId, p.username, p.name, p.email, p.passwordHash, p.phone,
    p.role, some p.otp, some p.expires⟩, husr, rfl, rfl, by rw [hreset], ?_⟩
  refine ⟨⟨db.nextUserId, p.username, p.name, p.email, hash newPassword, p.phone,
    p.role, none, none⟩, ?_, rfl, rfl, rfl⟩
  rw [hreset]
  show userByEmail (some email)
      ((verifyRegistration today now₁ metricOk ⟨some email, some p.otp⟩ db).2.users.map
        fun v => if v.id == db.nextUserId then
          ⟨db.nextUserId, p.username, p.name, p.email, hash newPassword, p.phone,
            p.role, none, none⟩ else v) = some _
  rw [hreg]
  exact @userByEmail_map_update email db.users
    ⟨db.nextUserId, p.username, p.name, p.email, p.passwordHash, p.phone,
      p.role, some p.otp, some p.expires⟩
    ⟨db.nextUserId, p.username, p.name, p.email, hash newPassword, p.phone,
      p.role, none, none⟩ hu hpe

/-! ### Concrete fixtures for the witnesses -/

/-- A pending registration row used by the witnesses. -/
def wPending : PendingUser :=
  ⟨"a@x.com", "a", none, "HASH", none, "staff", "123456", 1000⟩

/-- A database holding only `wPending`. -/
def wDB : DB := ⟨[], [wPending], [], 0, []⟩

/-- A verified user row used by the witnesses. -/
def wUser : User := ⟨0, "a", none, "a@x.com", "HASH", none, "staff", none, none⟩

/-- A database holding only `wUser`. -/
def wDB2 : DB := ⟨[wUser], [], [], 1, []⟩

/-- A user row mid password-reset, with a stored OTP, used by the
witnesses. -/
def wUser3 : User :=
  ⟨7, "b", none, "b@x.com", "HASH", none, "staff", some "654321", some 500⟩

/-- A database holding only `wUser3`. -/
def wDB3 : DB := ⟨[wUser3], [], [], 8, []⟩

/-- Witness for C1 at a concrete database. -/
theorem verifyRegistration_success_witness :
    (verifyRegistration 0 5 true ⟨some "a@x.com", some "123456"⟩ wDB).1.status = 201 :=
  (verifyRegistration_success 0 5 0 6 true true "a@x.com" "123456" wDB wPending
    (by decide) (by decide) (by decide) (by decide)).1

/-- Witness for C3 at a concrete database. -/
theorem verifyRegistration_expired_witness :
    (verifyRegistration 0 2000 true ⟨some "a@x.com", some "999999"⟩ wDB).1.status = 400 :=
  (verifyRegistration_expired 0 2000 true "a@x.com" (some "999999") wDB wPending
    (by decide) (by decide)).1

/-- Witness for C7 at a concrete database. -/
theorem verifyRegistration_metric_failure_witness :
    (verifyRegistration 0 5 false ⟨some "a@x.com", some "123456"⟩ wDB).2.metrics =
      wDB.metrics :=
  (verifyRegistration_metric_failure 0 5 "a@x.com" "123456" wDB wPending
    (by decide) (by decide) (by decide) (by decide)).2.2.2.2

/-- Witness for the amended C4 at a concrete database. -/
theorem register_conflict_witness :
    (register (fun s => s) 0 0 ⟨some "a", none, some "a@x.com", some "p", none, none⟩
      wDB2).1.status = 409 :=
  (register_conflict (fun s => s) 0 0
    ⟨some "a", none, some "a@x.com", some "p", none, none⟩ wDB2 wUser
    (by decide) (by decide)).1

/-- Witness for the amended C5 at a concrete database. -/
theorem login_unauthorized_witness :
    (login (fun _ _ => false) "s" none ⟨some "a@x.com", some "p"⟩ wDB).status = 401 :=
  (login_unauthorized (fun _ _ => false) "s" none "a@x.com" "p" wDB
    (by decide) (by decide) (Or.inl (by decide))).1

/-- Witness for C2 at a concrete database. -/
theorem login_success_witness :
    (login (fun _ h => h == "HASH") "s" none ⟨some "a@x.com", some "p"⟩ wDB2).status =
      200 :=
  (login_success (fun _ h => h == "HASH") "s" none "a@x.com" "p" wDB2 wUser
    (by decide) (by decide) (by decide) (by decide)).1

/-- C8 counterexample: a reset request whose User's stored OTP matches the
submitted one and is unexpired, but whose newPassword is the empty
string, answers 400 from the presence check and leaves the database
untouched — so the claim's unconditional password update fails. -/
theorem verifyOtpReset_empty_newPassword_counterexample :
    wUser3.otp = some "654321" ∧
    wUser3.otpExpires = some 500 ∧
    (100 : Nat) ≤ 500 ∧
    (verifyOtpReset (fun s => s ++ "#") 100
      ⟨some "b@x.com", some "654321", some ""⟩ wDB3).1.status = 400 ∧
    (verifyOtpReset (fun s => s ++ "#") 100
      ⟨some "b@x.com", some "654321", some ""⟩ wDB3).2 = wDB3 := by
  refine ⟨by decide, by decide, by decide, by decide, by decide⟩

/-- Witness for the amended C8 at a concrete database. -/
theorem verifyOtpReset_success_witness :
    (verifyOtpReset (fun s => s ++ "#") 100
      ⟨some "b@x.com", some "654321", some "np"⟩ wDB3).1.status = 200 :=
  (verifyOtpReset_success (fun s => s ++ "#") 100 "b@x.com" "654321" "np" wDB3 wUser3
    500 (by decide) (by decide) (by decide) (by decide) (by decide) (by decide)
    (by decide)).1

/-- Witness for C10 at a concrete database. -/
theorem registration_otp_enables_password_reset_witness :
    (verifyOtpReset (fun s => s ++ "#") 900 ⟨some "a@x.com", some "123456", some "np"⟩
      (verifyRegistration 0 5 true ⟨some "a@x.com", some "123456"⟩ wDB).2).1.status =
      200 := by
  obtain ⟨u, _, _, _, hstatus, _⟩ :=
    registration_otp_enables_password_reset 0 5 900 true (fun s => s ++ "#")
      "a@x.com" "np" wDB wPending (by decide) (by decide) (by decide) (by decide)
      (by decide) (by decide) (by decide)
  exact hstatus

end Manifest
